import Mathlib

/-!
Verification model of the AI Runner application bootstrap / lifecycle
controller (`src/airunner/app.py`, class `App`).

The Python class is embedded shallowly:

* The persisted settings store (two singleton record tables accessed with
  `objects.first()` / `objects.create()`) is modelled by `Storage`, a pair of
  lists; `first` is `List.head?` and `create` appends a default record.
  Storage reads/creates performed by a call are recorded in an explicit
  operation trace so that "does not touch storage" is provable.
* `os.path.exists` and the process-level configuration flags are inputs
  (fields of `GateEnv` / `AppModel`).
* Fallible Python code (subscripting a short list, attribute access on
  `None`) is embedded with `Option` / `Except`: an `Except.error` value is an
  uncaught Python exception.
* Methods whose interesting content is the sequence of toolkit interactions
  (`start`, `run`, `show_main_application`) return explicit effect traces
  (`List Eff`) plus an outcome.
-/

namespace Airunner

/-- A `PathSettings` row; the only field the lifecycle code consumes is
`base_path`. -/
structure PathSettingsRec where
  base_path : String
deriving DecidableEq, Repr

/-- An `ApplicationSettings` row; the only field the lifecycle code consumes
is `run_setup_wizard`. -/
structure ApplicationSettingsRec where
  run_setup_wizard : Bool
deriving DecidableEq, Repr

/-- The persisted settings store: the two record tables.
`objects.first()` is `List.head?`; `objects.create()` appends a default. -/
structure Storage where
  pathSettings : List PathSettingsRec
  applicationSettings : List ApplicationSettingsRec
deriving DecidableEq, Repr

/-- One storage operation performed by the settings gate, recorded in order. -/
inductive StorageOp where
  | readAppFirst
  | readPathFirst
  | createPath
  | createApp
deriving DecidableEq, Repr

/-- Process-environment inputs of `App.run_setup_wizard`:
the `AIRUNNER_DISABLE_SETUP_WIZARD` flag, the `os.path.exists` oracle, and
the default rows produced by `objects.create()` (the defaults live in the
data-model modules, outside this file's source; they are opaque parameters
here). -/
structure GateEnv where
  disable_setup_wizard : Bool
  path_exists : String → Bool
  pathDefault : PathSettingsRec
  appDefault : ApplicationSettingsRec

/-- Result of `App.run_setup_wizard`: whether `AppInstaller()` (the GUI setup
wizard) was invoked, the storage after the call, and the ordered trace of
storage operations performed. -/
structure GateOutcome where
  wizardInvoked : Bool
  storage : Storage
  trace : List StorageOp
deriving DecidableEq, Repr

/-- Shallow embedding of the static method `App.run_setup_wizard`
(`app.py` lines 61-80).  `none` is an uncaught attribute error (reading
`.base_path` when even the re-read after `create` returned nothing); the
code never hits it, as the theorems below show at concrete inputs. -/
def App.run_setup_wizard (env : GateEnv) (st0 : Storage) : Option GateOutcome :=
  if env.disable_setup_wizard then
    some { wizardInvoked := false, storage := st0, trace := [] }
  else
    let application_settings := st0.applicationSettings.head?
    let path_settings := st0.pathSettings.head?
    let tr0 : List StorageOp := [.readAppFirst, .readPathFirst]
    let step1 : Storage × List StorageOp × Option PathSettingsRec :=
      match path_settings with
      | none =>
          let st1 : Storage :=
            { st0 with pathSettings := st0.pathSettings ++ [env.pathDefault] }
          (st1, tr0 ++ [.createPath, .readPathFirst], st1.pathSettings.head?)
      | some ps => (st0, tr0, some ps)
    let step2 : Storage × List StorageOp × Option ApplicationSettingsRec :=
      match application_settings with
      | none =>
          let st2 : Storage :=
            { step1.1 with
              applicationSettings := step1.1.applicationSettings ++ [env.appDefault] }
          (st2, step1.2.1 ++ [.createApp, .readAppFirst],
            st2.applicationSettings.head?)
      | some a => (step1.1, step1.2.1, some a)
    match step1.2.2, step2.2.2 with
    | some ps, some appS =>
        some { wizardInvoked :=
                 (!env.path_exists ps.base_path) || appS.run_setup_wizard
               storage := step2.1
               trace := step2.2.1 }
    | _, _ => none

/-- A live splash-screen object (a `QSplashScreen`).  `dismissed` records
whether `finish` has already been called on it; the toolkit keeps the object
alive afterwards, so method calls on a dismissed splash still succeed. -/
structure SplashScreen where
  dismissed : Bool
deriving DecidableEq, Repr

/-- A Python exception kind raised by the embedded code. -/
inductive PyErr where
  | keyError
  | indexError
  | attributeError
deriving DecidableEq, Repr

/-- The arguments of a `showMessage` call on the splash screen: the text, the
alignment flags and the color actually passed at `app.py` lines 198-203. -/
structure ShowMessageCall where
  text : String
  alignBottom : Bool
  alignCenter : Bool
  colorWhite : Bool
deriving DecidableEq, Repr

/-- Shallow embedding of the static method `App.update_splash_message`
(`app.py` lines 196-203).  The Python body calls `splash.showMessage(...)`
unconditionally; when `splash` is `None` that attribute access raises
`AttributeError`, hence the `Except.error` branch.  On a live (even already
dismissed) splash the toolkit call succeeds. -/
def App.update_splash_message (splash : Option SplashScreen) (message : String) :
    Except PyErr ShowMessageCall :=
  match splash with
  | none => .error .attributeError
  | some _ =>
      .ok { text := message
            alignBottom := true
            alignCenter := true
            colorWhite := true }

/-- Python `str.split(" - ")` on the character list of a string: cut at each
left-to-right, non-overlapping occurrence of the three-character delimiter
`" - "`.  (Embedded by hand because the delimiter is fixed in the source;
matches CPython semantics, e.g. splitting the empty string yields one empty
segment.) -/
def splitDash : List Char → List (List Char)
  | [] => [[]]
  | ' ' :: '-' :: ' ' :: rest => [] :: splitDash rest
  | c :: rest =>
      match splitDash rest with
      | [] => [[c]]
      | p :: ps => (c :: p) :: ps

/-- Shallow embedding of `App.on_log_logged_signal` (`app.py` lines 82-84).
`data` is the log record mapping; `data["message"]` raises `KeyError` when
absent, the split uses the fixed `" - "` delimiter, and `message[4]` raises
`IndexError` when the split yields fewer than 5 segments. -/
def App.on_log_logged_signal (splash : Option SplashScreen)
    (data : List (String × String)) : Except PyErr ShowMessageCall :=
  match (data.lookup "message") with
  | none => .error .keyError
  | some m =>
      let message := (splitDash m.data).map String.mk
      match message.get? 4 with
      | none => .error .indexError
      | some seg => App.update_splash_message splash seg

/-- Geometry computed by `App.display_splash_screen` (`app.py` lines
160-190): the size of the transparent canvas, the top-left offset at which
the splash image is blitted onto it, and the overlay window geometry. -/
structure SplashGeometry where
  canvas_w : Int
  canvas_h : Int
  x_pos : Int
  y_pos : Int
  overlay_x : Int
  overlay_y : Int
  overlay_w : Int
  overlay_h : Int
deriving DecidableEq, Repr

/-- The pure geometry core of `App.display_splash_screen`, for a screen of
geometry `(screen_x, screen_y, screen_w, screen_h)` and a splash image of
size `(pix_w, pix_h)`.  Python `//` on integers is floor division, embedded
as `Int.fdiv`. -/
def App.display_splash_geometry (screen_x screen_y screen_w screen_h pix_w pix_h : Int) :
    SplashGeometry :=
  { canvas_w := screen_w
    canvas_h := screen_h
    x_pos := Int.fdiv (screen_w - pix_w) 2
    y_pos := Int.fdiv (screen_h - pix_h) 2
    overlay_x := screen_x
    overlay_y := screen_y
    overlay_w := screen_w
    overlay_h := screen_h - pix_h }

/-- Observable result of `App.signal_handler` (`app.py` lines 123-140):
what was printed (in order), whether the original standard streams were
restored, whether an event-loop quit was attempted, and the process exit
code. -/
structure HandlerOutcome where
  printed : List String
  stdoutRestored : Bool
  stderrRestored : Bool
  quitAttempted : Bool
  exitCode : Nat
deriving DecidableEq, Repr

/-- Shallow embedding of the static method `App.signal_handler`.
`quitResult` abstracts the `QApplication.instance(); app.quit()` pair inside
the `try`: `.ok` when quitting succeeds, `.error e` when it raises an
exception rendered as `e` (e.g. the `AttributeError` of `None.quit()` before
the event loop exists).  `sys.exit(0)` raises `SystemExit`, which the
`except Exception` clause does not catch, so both paths exit with code 0. -/
def App.signal_handler (quitResult : Except String Unit) : HandlerOutcome :=
  let exitingLine := "\nExiting..."
  match quitResult with
  | .ok _ =>
      { printed := [exitingLine]
        stdoutRestored := true
        stderrRestored := true
        quitAttempted := true
        exitCode := 0 }
  | .error e =>
      { printed := [exitingLine, e]
        stdoutRestored := true
        stderrRestored := true
        quitAttempted := true
        exitCode := 0 }

/-- A toolkit / process interaction performed by a lifecycle method. -/
inductive Eff where
  | installSigintHandler
  | setToolkitAttribute
  | acquireEventLoop
  | attachApiBackref
  | showSplash
  | scheduleDeferred (ms : Nat)
  | execLoop
  | resolveDefaultWindowClass
  | dismissSplash
  | attemptConstructMainWindow
  | assignMainWindow
  | raiseWindow
  | printTraceback
  | printErrorMessage
  | exitNonzero
deriving DecidableEq, Repr

/-- The controller state the lifecycle methods read: the
`initialize_gui` flag (spelled `init_gui` here), the `no_splash` flag, the
current splash handle (`self.splash`) and whether a caller-supplied
`main_window_class_` is present. -/
structure AppModel where
  init_gui : Bool
  no_splash : Bool
  splash : Option SplashScreen
  hasCustomWindowClass : Bool
deriving DecidableEq, Repr

/-- Shallow embedding of `App.start` (`app.py` lines 86-102) as its trace of
toolkit interactions.  The `initialize_gui` guard at line 91 comes first;
then the SIGINT handler install, three `QApplication.setAttribute` calls,
obtaining/creating the singleton `QApplication`, and attaching the `api`
back-reference. -/
def App.start (a : AppModel) : List Eff :=
  if !a.init_gui then []
  else
    [.installSigintHandler, .setToolkitAttribute, .setToolkitAttribute,
     .setToolkitAttribute, .acquireEventLoop, .attachApiBackref]

/-- Shallow embedding of `App.run` (`app.py` lines 104-118) as its trace of
toolkit interactions: the `initialize_gui` guard, the conditional splash
display, the 50 ms one-shot deferred callback, and handing control to the
event loop (`sys.exit(self.app.exec())`). -/
def App.run (a : AppModel) : List Eff :=
  if !a.init_gui then []
  else
    (if !a.no_splash && !a.splash.isSome then [.showSplash] else [])
      ++ [.scheduleDeferred 50, .execLoop]

/-- Control outcome of `App.show_main_application`. -/
inductive ShowOutcome where
  | skipped
  | shown
  | fatalExit
  | propagatedError
deriving DecidableEq, Repr

/-- Shallow embedding of `App.show_main_application` (`app.py` lines
205-235).  `resolutionFails` says whether the deferred
`import MainWindow` (run only when no caller-supplied window class exists)
raises; `constructionFails` whether `window_class(...)` raises.  Mirroring
the source order: the `initialize_gui` guard, then type resolution (outside
any `try`, so its error propagates), then `self.splash.finish(None)` when a
splash handle exists, then the `try` block with construction, the
`app.main_window` assignment and `window.raise_()`, whose `except` prints
the traceback and the error and calls `sys.exit` with a message (a nonzero
process exit). -/
def App.show_main_application (a : AppModel) (resolutionFails constructionFails : Bool) :
    ShowOutcome × List Eff :=
  if !a.init_gui then (.skipped, [])
  else
    let resEff : List Eff :=
      if a.hasCustomWindowClass then [] else [.resolveDefaultWindowClass]
    if !a.hasCustomWindowClass && resolutionFails then
      (.propagatedError, resEff)
    else
      let disEff : List Eff := if a.splash.isSome then [.dismissSplash] else []
      if constructionFails then
        (.fatalExit,
          resEff ++ disEff
            ++ [.attemptConstructMainWindow, .printTraceback,
                .printErrorMessage, .exitNonzero])
      else
        (.shown,
          resEff ++ disEff
            ++ [.attemptConstructMainWindow, .assignMainWindow, .raiseWindow])

/-- Formalization of claim C1 as stated: with GUI initialization disabled,
each lifecycle transition method — `start`, the setup-wizard step, `run`,
`show_main_application` — performs no toolkit interaction and returns
without error (the setup wizard, `AppInstaller()`, is itself a GUI
interaction, so "no toolkit interaction" entails it is not invoked). -/
def C1_claim : Prop :=
  ∀ (a : AppModel) (rf cf : Bool) (env : GateEnv) (st : Storage),
    a.init_gui = false →
    App.start a = [] ∧
    App.run a = [] ∧
    (App.show_main_application a rf cf).2 = [] ∧
    (App.run_setup_wizard env st).map GateOutcome.wizardInvoked = some false

/-- Formalization of claim C4 as stated: with the GUI enabled, every run of
`show_main_application` in which an error is raised during main-window type
resolution or during construction ends in the caught-and-fatal-exit path,
with a traceback printed and a nonzero process exit. -/
def C4_claim : Prop :=
  ∀ (a : AppModel) (rf cf : Bool),
    a.init_gui = true →
    ((a.hasCustomWindowClass = false ∧ rf = true) ∨ cf = true) →
    (App.show_main_application a rf cf).1 = ShowOutcome.fatalExit ∧
    Eff.printTraceback ∈ (App.show_main_application a rf cf).2 ∧
    Eff.exitNonzero ∈ (App.show_main_application a rf cf).2

/-- Formalization of claim C5 as stated: with the GUI enabled, whenever a
splash handle was obtained it is dismissed exactly once and the dismissal
happens after main-window construction (the §4.4 step order: resolve,
construct, then finish the splash), and no dismissal happens when no handle
was obtained. -/
def C5_claim : Prop :=
  ∀ (a : AppModel) (rf cf : Bool),
    a.init_gui = true →
    (a.splash.isSome = true →
        (App.show_main_application a rf cf).2.count Eff.dismissSplash = 1 ∧
        (App.show_main_application a rf cf).2.indexOf Eff.attemptConstructMainWindow
          < (App.show_main_application a rf cf).2.indexOf Eff.dismissSplash) ∧
    (a.splash.isSome = false →
        (App.show_main_application a rf cf).2.count Eff.dismissSplash = 0)

/-! ## Theorems -/

/-- Floor division by two, characterized: `Int.fdiv a 2` is the unique
integer `q` with `2*q ≤ a < 2*q + 2` (Python `// 2` semantics), for even and
odd `a` alike. -/
theorem fdiv_two_char (a : Int) :
    2 * Int.fdiv a 2 ≤ a ∧ a < 2 * Int.fdiv a 2 + 2 := by
  have h := Int.fdiv_eq_ediv a (by norm_num : (0 : Int) ≤ 2)
  omega

/-- C1 (counterexample): the claim "every lifecycle transition method checks
the GUI-disabled flag at entry and then performs no toolkit interaction" is
false: `run_setup_wizard` is a static method that never consults the flag;
with the wizard-disable override unset, an empty store, and a non-existent
default base path it invokes the GUI setup wizard regardless of the flag. -/
theorem C1_gui_disabled_counterexample : ¬ C1_claim := by
  intro h
  have h4 := (h ⟨false, false, none, false⟩ false false
      ⟨false, fun _ => false, ⟨"/missing"⟩, ⟨false⟩⟩ ⟨[], []⟩ rfl).2.2.2
  exact absurd h4 (by decide)

/-- C1 (amended): with GUI initialization disabled, the instance transition
methods `start`, `run` and `show_main_application` each check the flag at
entry and perform no toolkit interaction, returning without error; the
static setup-wizard step is gated only at the top level (`__init__`) and by
the wizard-disable configuration flag, not by the GUI flag. -/
theorem C1_gui_disabled_amended (a : AppModel) (rf cf : Bool)
    (h : a.init_gui = false) :
    App.start a = [] ∧
    App.run a = [] ∧
    App.show_main_application a rf cf = (ShowOutcome.skipped, []) := by
  simp [App.start, App.run, App.show_main_application, h]

/-- C1 (witness): the amended theorem at a concrete GUI-disabled model. -/
theorem C1_gui_disabled_witness :
    App.start ⟨false, false, none, false⟩ = [] ∧
    App.run ⟨false, false, none, false⟩ = [] ∧
    App.show_main_application ⟨false, false, none, false⟩ true true
      = (ShowOutcome.skipped, []) :=
  C1_gui_disabled_amended ⟨false, false, none, false⟩ true true rfl

/-- C2: a log record whose `message` splits on `" - "` into fewer than 5
segments crashes the handler — `on_log_logged_signal` raises an uncaught
`IndexError` at `message[4]`, contradicting the spec's "must not crash the
controller" (the spec itself flags this as a latent defect, §9). -/
theorem C2_malformed_log_crash :
    App.on_log_logged_signal (some ⟨false⟩) [("message", "Loading")]
      = .error .indexError := by
  rfl

/-- C3: calling the splash `updateMessage` operation with an absent handle
is not a no-op — `update_splash_message` on `None` raises an uncaught
`AttributeError` (`None.showMessage`), contradicting the spec's "no-op if
handle is absent". -/
theorem C3_update_splash_none_crash :
    App.update_splash_message none "Loading AI Runner"
      = .error .attributeError := by
  rfl

/-- C4 (counterexample): the claim "every error during type resolution or
construction is caught" is false: the deferred default-window-class import
at `app.py` lines 216-219 runs outside the `try`, so a resolution error
propagates unhandled instead of reaching the fatal-exit path. -/
theorem C4_resolution_error_counterexample : ¬ C4_claim := by
  intro h
  have h1 := (h ⟨true, false, none, false⟩ true false rfl (Or.inl ⟨rfl, rfl⟩)).1
  exact absurd h1 (by decide)

/-- C4 (amended): every error raised during main-window construction (the
`try` block: construction, window assignment, raising) is caught, a
traceback and the error are printed, and the process exits with nonzero
status and the support-channel message; errors during default type
resolution, which happens before the `try`, propagate unhandled. -/
theorem C4_construction_error_amended (a : AppModel) (rf cf : Bool)
    (hg : a.init_gui = true)
    (hres : a.hasCustomWindowClass = true ∨ rf = false)
    (hcf : cf = true) :
    (App.show_main_application a rf cf).1 = ShowOutcome.fatalExit ∧
    Eff.printTraceback ∈ (App.show_main_application a rf cf).2 ∧
    Eff.printErrorMessage ∈ (App.show_main_application a rf cf).2 ∧
    Eff.exitNonzero ∈ (App.show_main_application a rf cf).2 := by
  obtain ⟨g, ns, sp, hc⟩ := a
  subst hg
  subst hcf
  rcases hres with hres | hres
  · subst hres
    cases sp <;> cases rf <;> simp [App.show_main_application]
  · subst hres
    cases sp <;> cases hc <;> simp [App.show_main_application]

/-- C4 (witness): the amended theorem at a concrete failing construction. -/
theorem C4_construction_error_witness :
    (App.show_main_application ⟨true, false, some ⟨false⟩, true⟩ false true).1
        = ShowOutcome.fatalExit ∧
    Eff.printTraceback
        ∈ (App.show_main_application ⟨true, false, some ⟨false⟩, true⟩ false true).2 ∧
    Eff.printErrorMessage
        ∈ (App.show_main_application ⟨true, false, some ⟨false⟩, true⟩ false true).2 ∧
    Eff.exitNonzero
        ∈ (App.show_main_application ⟨true, false, some ⟨false⟩, true⟩ false true).2 :=
  C4_construction_error_amended ⟨true, false, some ⟨false⟩, true⟩ false true rfl
    (Or.inl rfl) rfl

/-- C5 (counterexample): the claim that splash dismissal happens after
main-window construction is false: `show_main_application` calls
`self.splash.finish(None)` (line 221-222) before the `try` block, so in the
trace the dismissal precedes the construction attempt. -/
theorem C5_dismiss_order_counterexample : ¬ C5_claim := by
  intro h
  have h1 := ((h ⟨true, false, some ⟨false⟩, true⟩ false false) rfl).1 rfl
  exact absurd h1.2 (by decide)

/-- C5 (amended): with the GUI enabled, whenever `show_main_application`
proceeds past type resolution the splash handle is dismissed exactly once,
after type resolution but before main-window construction is attempted
(both on the success and on the construction-failure path), and dismissal
is skipped entirely when no handle was obtained. -/
theorem C5_dismiss_order_amended (a : AppModel) (rf cf : Bool)
    (hg : a.init_gui = true)
    (hres : a.hasCustomWindowClass = true ∨ rf = false) :
    (App.show_main_application a rf cf).2.count Eff.dismissSplash
      = (if a.splash.isSome then 1 else 0) ∧
    (a.splash.isSome = true →
      (App.show_main_application a rf cf).2.indexOf Eff.dismissSplash
        < (App.show_main_application a rf cf).2.indexOf Eff.attemptConstructMainWindow) := by
  obtain ⟨g, ns, sp, hc⟩ := a
  subst hg
  rcases hres with hres | hres
  · subst hres
    cases sp <;> cases rf <;> cases cf
    all_goals simp [App.show_main_application]
  · subst hres
    cases sp <;> cases hc <;> cases cf
    all_goals simp [App.show_main_application]

/-- C5 (witness): the amended theorem at a concrete run with a live splash
handle and a successful construction. -/
theorem C5_dismiss_order_witness :
    (App.show_main_application ⟨true, false, some ⟨false⟩, true⟩ false false).2.count
        Eff.dismissSplash = 1 ∧
    (App.show_main_application ⟨true, false, some ⟨false⟩, true⟩ false false).2.indexOf
        Eff.dismissSplash
      < (App.show_main_application ⟨true, false, some ⟨false⟩, true⟩ false false).2.indexOf
        Eff.attemptConstructMainWindow := by
  have h := C5_dismiss_order_amended ⟨true, false, some ⟨false⟩, true⟩ false false rfl
    (Or.inl rfl)
  exact ⟨by simpa using h.1, h.2 rfl⟩

/-- C6: with the wizard-disable override unset and both records present, the
settings gate invokes the setup wizard if and only if
`not exists(base_path) or application_settings.run_setup_wizard`: the
decision equals that boolean, so it is `true` whenever `base_path` does not
exist and `false` when `base_path` exists and `run_setup_wizard` is
`false`. -/
theorem C6_gate_decision (env : GateEnv)
    (ps : PathSettingsRec) (pst : List PathSettingsRec)
    (appS : ApplicationSettingsRec) (apst : List ApplicationSettingsRec)
    (hdis : env.disable_setup_wizard = false) :
    (App.run_setup_wizard env ⟨ps :: pst, appS :: apst⟩).map GateOutcome.wizardInvoked
      = some ((!env.path_exists ps.base_path) || appS.run_setup_wizard) ∧
    ((App.run_setup_wizard env ⟨ps :: pst, appS :: apst⟩).map GateOutcome.wizardInvoked
        = some true
      ↔ (env.path_exists ps.base_path = false ∨ appS.run_setup_wizard = true)) := by
  cases h1 : env.path_exists ps.base_path <;>
    cases h2 : appS.run_setup_wizard <;>
      simp [App.run_setup_wizard, hdis, h1, h2]

/-- C6 (witness): the gate decision at a concrete store whose base path
exists and whose `run_setup_wizard` is `false`. -/
theorem C6_gate_decision_witness :
    (App.run_setup_wizard ⟨false, fun _ => true, ⟨"d"⟩, ⟨false⟩⟩
        ⟨[⟨"/base"⟩], [⟨false⟩]⟩).map GateOutcome.wizardInvoked = some false := by
  have h := C6_gate_decision ⟨false, fun _ => true, ⟨"d"⟩, ⟨false⟩⟩
    ⟨"/base"⟩ [] ⟨false⟩ [] rfl
  simpa using h.1

/-- C7: with the `AIRUNNER_DISABLE_SETUP_WIZARD` override set, the gate
returns immediately: the wizard is not invoked, the storage is unchanged and
the storage-operation trace is empty (no record is read or created), for any
storage state, including one with no records at all. -/
theorem C7_gate_disabled_no_storage (env : GateEnv) (st : Storage)
    (h : env.disable_setup_wizard = true) :
    App.run_setup_wizard env st
      = some { wizardInvoked := false, storage := st, trace := [] } := by
  simp [App.run_setup_wizard, h]

/-- C7 (witness): the override at a concrete empty store. -/
theorem C7_gate_disabled_no_storage_witness :
    App.run_setup_wizard ⟨true, fun _ => false, ⟨"d"⟩, ⟨false⟩⟩ ⟨[], []⟩
      = some { wizardInvoked := false, storage := ⟨[], []⟩, trace := [] } :=
  C7_gate_disabled_no_storage ⟨true, fun _ => false, ⟨"d"⟩, ⟨false⟩⟩ ⟨[], []⟩ rfl

/-- C8: starting from a store with no PathSettings and no ApplicationSettings
record, the gate creates exactly one record of each (the resulting store is
exactly the two default rows; the trace contains exactly one `createPath`
and one `createApp`), and the decision is computed from the freshly created
defaults. -/
theorem C8_gate_creates_defaults (env : GateEnv)
    (hdis : env.disable_setup_wizard = false) :
    App.run_setup_wizard env ⟨[], []⟩
      = some { wizardInvoked :=
                 (!env.path_exists env.pathDefault.base_path)
                   || env.appDefault.run_setup_wizard
               storage := ⟨[env.pathDefault], [env.appDefault]⟩
               trace := [.readAppFirst, .readPathFirst, .createPath,
                         .readPathFirst, .createApp, .readAppFirst] } := by
  simp [App.run_setup_wizard, hdis]

/-- C8 (witness): creation from an empty store at concrete defaults whose
base path does not exist, so the freshly created defaults decide `true`. -/
theorem C8_gate_creates_defaults_witness :
    App.run_setup_wizard ⟨false, fun _ => false, ⟨"/data"⟩, ⟨false⟩⟩ ⟨[], []⟩
      = some { wizardInvoked := true
               storage := ⟨[⟨"/data"⟩], [⟨false⟩]⟩
               trace := [.readAppFirst, .readPathFirst, .createPath,
                         .readPathFirst, .createApp, .readAppFirst] } := by
  have h := C8_gate_creates_defaults ⟨false, fun _ => false, ⟨"/data"⟩, ⟨false⟩⟩ rfl
  simpa using h

/-- C9: every invocation of the interrupt handler prints the exiting notice
first, restores the original standard output and error streams, attempts to
quit the event loop, and exits with code 0; when quitting raises, the error
is printed after the notice and the exit code is still 0. -/
theorem C9_signal_handler_exit_zero (q : Except String Unit) :
    (App.signal_handler q).exitCode = 0 ∧
    (App.signal_handler q).printed.head? = some "\nExiting..." ∧
    (App.signal_handler q).stdoutRestored = true ∧
    (App.signal_handler q).stderrRestored = true ∧
    (App.signal_handler q).quitAttempted = true ∧
    (App.signal_handler q).printed
      = "\nExiting..." :: (match q with | .ok _ => [] | .error e => [e]) := by
  cases q <;> simp [App.signal_handler]

/-- C10: the splash presenter blits the image at the top-left offset
`((W − w) // 2, (H − h) // 2)` of the full-display canvas, with `//` floor
division — the offsets equal `Int.fdiv` of the differences by two and
satisfy the floor characterization for even and odd differences alike. -/
theorem C10_splash_centering_offset (sx sy W H w h : Int) :
    (App.display_splash_geometry sx sy W H w h).x_pos = Int.fdiv (W - w) 2 ∧
    (App.display_splash_geometry sx sy W H w h).y_pos = Int.fdiv (H - h) 2 ∧
    (2 * (App.display_splash_geometry sx sy W H w h).x_pos ≤ W - w ∧
      W - w < 2 * (App.display_splash_geometry sx sy W H w h).x_pos + 2) ∧
    (2 * (App.display_splash_geometry sx sy W H w h).y_pos ≤ H - h ∧
      H - h < 2 * (App.display_splash_geometry sx sy W H w h).y_pos + 2) :=
  ⟨rfl, rfl, fdiv_two_char (W - w), fdiv_two_char (H - h)⟩

end Airunner
